import Mathlib

/-!
Shallow embedding of the two SQL macro-expansion functions of this
repository, `sqlmesh/macros/generate_surrogate_key.py` and
`sqlmesh/macros/star_v2.py`, together with theorems settling the frozen
claims about them.  The sqlglot expression nodes are embedded as an
inductive type, the schema resolver and identifier normalizer (external
collaborators) as function fields of `MacroEvaluator`, and Python
exceptions as an error sum type returned through `Except`.
-/

/-- Embedding of the sqlglot expression nodes the two functions build or
inspect.  Constructor names follow the sqlglot class names: `Literal` is a
string literal, `Boolean` a boolean literal, `Column` a (possibly
table-qualified, possibly quoted) column reference, `Cast` carries the
target type's SQL text, `Alias` wraps an expression with an output name
(`quoted` per sqlglot's `as_(..., quoted=...)`), and `Func` an anonymous
function call such as `COALESCE`, `CONCAT` or `digest`. -/
inductive Expr where
  | Literal (s : String)
  | Boolean (b : Bool)
  | Identifier (s : String)
  | Column (name table : String) (quoted : Bool)
  | Table (name : String)
  | Tuple (expressions : List Expr)
  | Array (expressions : List Expr)
  | Cast (this : Expr) (dtype : String)
  | Alias (this : Expr) (aliasName : String) (quoted : Bool)
  | Func (name : String) (args : List Expr)

/-- sqlglot's `Expression.name` property (`self.text("this")`): the raw
string when `this` is a string, the inner raw string when `this` is an
`Identifier` or `Literal`, and `""` otherwise. -/
def Expr.name : Expr → String
  | .Literal s => s
  | .Boolean _ => ""
  | .Identifier s => s
  | .Column n _ _ => n
  | .Table n => n
  | .Tuple _ => ""
  | .Array _ => ""
  | .Cast e _ =>
    match e with
    | .Identifier s => s
    | .Literal s => s
    | _ => ""
  | .Alias e _ _ =>
    match e with
    | .Identifier s => s
    | .Literal s => s
    | _ => ""
  | .Func _ _ => ""

example : (Expr.Column "a" "t" true).name = "a" := rfl
example : (Expr.Tuple []).name = "" := rfl

/-! ## `generate_surrogate_key.py` -/

/-- Per-field wrapper built by `generate_surrogate_key__sha_256`:
`exp.func("COALESCE", exp.cast(field, exp.DataType.build("text")),
exp.Literal.string("_sqlmesh_surrogate_key_null_"))`. -/
def coalesceTextCast (field : Expr) : Expr :=
  Expr.Func "COALESCE"
    [Expr.Cast field "text", Expr.Literal "_sqlmesh_surrogate_key_null_"]

/-- One iteration of the `for i, field in enumerate(fields)` loop: when the
index is positive a `'|'` separator literal is appended first, then the
coalesced text-cast field. -/
def surrogateStep (string_fields : List Expr) (iField : Nat × Expr) : List Expr :=
  (if iField.1 > 0 then string_fields ++ [Expr.Literal "|"] else string_fields)
    ++ [coalesceTextCast iField.2]

/-- Embedding of `generate_surrogate_key__sha_256` from
`sqlmesh/macros/generate_surrogate_key.py`: fold the enumerated field list
through the loop body, then wrap the accumulated arguments as
`exp.func("digest", exp.func("CONCAT", *string_fields),
exp.Literal.string("sha256"))`. -/
def generate_surrogate_key__sha_256 (fields : List Expr) : Expr :=
  Expr.Func "digest"
    [Expr.Func "CONCAT" (fields.enum.foldl surrogateStep []),
     Expr.Literal "sha256"]

/-- The output shape described by the specification (§4.1, claim C2),
written from the spec's words for comparison with the source embedding:
each field becomes `COALESCE(CAST(field AS TEXT), <null-sentinel>)`, the
wrapped fields are joined with a literal `"|"` separator in input order,
and the concatenation is wrapped in the digest call requesting sha256. -/
def surrogateKeySpecShape (fields : List Expr) : Expr :=
  Expr.Func "digest"
    [Expr.Func "CONCAT"
      (List.intersperse (Expr.Literal "|")
        (fields.map (fun f =>
          Expr.Func "COALESCE"
            [Expr.Cast f "text",
             Expr.Literal "_sqlmesh_surrogate_key_null_"]))),
     Expr.Literal "sha256"]

/-- Folding the loop body over fields enumerated from a positive index
prepends a separator before every field. -/
theorem surrogate_foldl_pos (rest : List Expr) :
    ∀ (n : Nat) (acc : List Expr),
      (List.enumFrom (n + 1) rest).foldl surrogateStep acc
        = acc ++ rest.foldr
            (fun g l => Expr.Literal "|" :: coalesceTextCast g :: l) [] := by
  induction rest with
  | nil => intro n acc; simp [List.enumFrom]
  | cons g gs ih =>
    intro n acc
    simp only [List.enumFrom, List.foldl_cons, List.foldr_cons]
    rw [ih (n + 1)]
    simp [surrogateStep]

/-- Interspersing the separator through the mapped fields produces the
same list as the loop's separator placement. -/
theorem intersperse_eq_foldr (g : Expr) (gs : List Expr) :
    List.intersperse (Expr.Literal "|") ((g :: gs).map coalesceTextCast)
      = coalesceTextCast g
          :: gs.foldr (fun x l => Expr.Literal "|" :: coalesceTextCast x :: l) [] := by
  induction gs generalizing g with
  | nil => simp [List.intersperse]
  | cons x xs ih =>
    simp only [List.map_cons] at ih ⊢
    rw [List.intersperse_cons_cons, ih x]
    simp

/-- C2: for every non-empty field list, `generate_surrogate_key__sha_256`
returns a single `digest(CONCAT(...), 'sha256')` call whose `CONCAT`
arguments are the fields wrapped as `COALESCE(CAST(field AS TEXT),
'_sqlmesh_surrogate_key_null_')`, joined by the literal separator `'|'`
in the exact input order. -/
theorem generate_surrogate_key_matches_spec (fields : List Expr)
    (hne : fields ≠ []) :
    generate_surrogate_key__sha_256 fields = surrogateKeySpecShape fields := by
  cases fields with
  | nil => exact absurd rfl hne
  | cons g gs =>
    unfold generate_surrogate_key__sha_256 surrogateKeySpecShape
    rw [show ((g :: gs).map fun f =>
          Expr.Func "COALESCE"
            [Expr.Cast f "text", Expr.Literal "_sqlmesh_surrogate_key_null_"])
        = (g :: gs).map coalesceTextCast from rfl]
    rw [intersperse_eq_foldr]
    simp only [List.enum, List.enumFrom, List.foldl_cons]
    rw [show surrogateStep [] (0, g) = [coalesceTextCast g] from rfl]
    rw [show (1 : Nat) = 0 + 1 from rfl, surrogate_foldl_pos]
    simp

/-- Witness for C2 at the concrete field list `[a, b]`. -/
theorem generate_surrogate_key_matches_spec_witness :
    ([Expr.Column "a" "" false, Expr.Column "b" "" false] ≠ ([] : List Expr))
      ∧ generate_surrogate_key__sha_256
            [Expr.Column "a" "" false, Expr.Column "b" "" false]
          = surrogateKeySpecShape
            [Expr.Column "a" "" false, Expr.Column "b" "" false] :=
  ⟨by simp, generate_surrogate_key_matches_spec _ (by simp)⟩

/-- C10: called with an empty field list the function does not fail; it
returns the digest of the empty concatenation,
`digest(CONCAT(), 'sha256')`. -/
theorem generate_surrogate_key_empty_fields :
    generate_surrogate_key__sha_256 []
      = Expr.Func "digest" [Expr.Func "CONCAT" [], Expr.Literal "sha256"] := rfl

/-- C9: for distinct fields `a ≠ b`, the keys built from `[a, b]` and from
`[b, a]` are different expression nodes (the `CONCAT` arguments appear in
opposite order). -/
theorem generate_surrogate_key_order_sensitive (a b : Expr) (hab : a ≠ b) :
    generate_surrogate_key__sha_256 [a, b]
      ≠ generate_surrogate_key__sha_256 [b, a] := by
  intro h
  apply hab
  simp [generate_surrogate_key__sha_256, List.enum, List.enumFrom,
    surrogateStep, coalesceTextCast] at h
  exact h.1

/-- Witness for C9 at the concrete distinct fields `a` and `b`. -/
theorem generate_surrogate_key_order_sensitive_witness :
    (Expr.Column "a" "" false ≠ Expr.Column "b" "" false)
      ∧ generate_surrogate_key__sha_256
            [Expr.Column "a" "" false, Expr.Column "b" "" false]
          ≠ generate_surrogate_key__sha_256
            [Expr.Column "b" "" false, Expr.Column "a" "" false] :=
  ⟨fun h => by injection h with h1 _ _; exact absurd h1 (by decide),
   generate_surrogate_key_order_sensitive _ _
     (fun h => by injection h with h1 _ _; exact absurd h1 (by decide))⟩

/-! ## `star_v2.py`: external collaborators and helpers -/

/-- The two external collaborators `star_v2` consults, per §6 of the
specification: the identifier normalizer
(`normalize(name, dialect) -> canonical_name`, the dialect being fixed by
the evaluator) and the schema resolver mapping a relation name to its
ordered `ColumnTypeMap`.  A declared type is its SQL text; the unknown
declared type is the sentinel string `"UNKNOWN"`. -/
structure MacroEvaluator where
  normalize : String → String
  schema : String → List (String × String)

/-- `evaluator.columns_to_types(relation)`: resolve the relation's ordered
column-to-type map through the schema resolver. -/
def MacroEvaluator.columns_to_types (ev : MacroEvaluator) (relation : Expr) :
    List (String × String) :=
  ev.schema relation.name

/-- Modelled from the spec: the helper `columns_to_types_all_known` used at
line 86 of `star_v2.py` is referenced there but defined in no file under
`src/` (the module does not even import it); per §4.2 step 5 of the
specification it checks whether every remaining column has a known
(non-unknown) declared type. -/
def columns_to_types_all_known (columns : List (String × String)) : Bool :=
  columns.all (fun kv => kv.2 != "UNKNOWN")

/-- Python truthiness of a sqlglot AST node.  `sqlglot.Expression` defines
neither `__bool__` nor `__len__`, so every node object — including
`exp.false()` and an empty tuple node — is truthy.  The source's
`if alias and ...`, `if exclude and ...`, `if prefix and ...`,
`if suffix and ...` and `if select_only:` tests all go through this. -/
def exprTruthy : Expr → Bool := fun _ => true

/-- `isinstance(x, (exp.Identifier, exp.Column))`. -/
def isIdentifierOrColumn : Expr → Bool
  | .Identifier _ => true
  | .Column _ _ _ => true
  | _ => false

/-- `isinstance(x, (exp.Array, exp.Tuple, exp.Column))`. -/
def isArrayTupleOrColumn : Expr → Bool
  | .Array _ => true
  | .Tuple _ => true
  | .Column _ _ _ => true
  | _ => false

/-- `isinstance(x, exp.Column)`. -/
def isColumnNode : Expr → Bool
  | .Column _ _ _ => true
  | _ => false

/-- `isinstance(x, exp.Literal)`. -/
def isLiteralNode : Expr → Bool
  | .Literal _ => true
  | _ => false

/-- `isinstance(x, exp.Boolean)`. -/
def isBooleanNode : Expr → Bool
  | .Boolean _ => true
  | _ => false

/-- Structural comparison `x == exp.tuple_()` with the empty tuple node
(sqlglot `__eq__` is structural). -/
def isEmptyTuple : Expr → Bool
  | .Tuple [] => true
  | _ => false

/-- sqlglot's `expressions` property: the child list of an array, tuple or
function node, `[]` for nodes without one. -/
def Expr.expressions : Expr → List Expr
  | .Tuple es => es
  | .Array es => es
  | .Func _ es => es
  | _ => []

/-- `.this` of a boolean node (`quote_identifiers.this`). -/
def Expr.boolThis : Expr → Bool
  | .Boolean b => b
  | _ => false

/-- `.this` of a string literal node (the prefix and suffix texts). -/
def Expr.litThis : Expr → String
  | .Literal s => s
  | _ => ""

/-- The exclusion-name set of `star_v2`: a bare column node is first
wrapped into a singleton tuple, then every entry is passed through the
external identifier normalizer and its `.name` taken
(`normalize_identifiers(excluded, dialect=evaluator.dialect).name`). -/
def excludedNamesOf (ev : MacroEvaluator) (exclude : Expr) : List String :=
  let exclude' := if isColumnNode exclude then Expr.Tuple [exclude] else exclude
  exclude'.expressions.map (fun excluded => ev.normalize excluded.name)

/-- `table_identifier = alias.name or relation.name` — Python `or` on
strings, where only the empty string is falsy. -/
def tableIdentifierOf (alias_ relation : Expr) : String :=
  if alias_.name ≠ "" then alias_.name else relation.name

/-- The retained columns of `star_v2`:
`{k: v for k, v in evaluator.columns_to_types(relation).items() if k not in
excluded_names}` — the resolver's ordered map filtered to the keys not in
the exclusion set, order preserved. -/
def retainedColumns (ev : MacroEvaluator) (relation exclude : Expr) :
    List (String × String) :=
  (ev.columns_to_types relation).filter
    (fun kv => ! (excludedNamesOf ev exclude).contains kv.1)

/-- The Python exceptions `star_v2` can raise: `SQLMeshError` for the
argument-shape validation failures (the message elides the offending
value's text), and the `NameError` on the module global `logger`, which is
used on the deprecation path but never defined or imported. -/
inductive PyErr where
  | SQLMeshError (msg : String)
  | NameError (missing : String)
  deriving DecidableEq, Repr

/-- sqlglot's `output_name` for the node shapes `star_v2` returns: the
column name of a bare column reference, the alias text of an aliased
projection. -/
def Expr.output_name : Expr → String
  | .Column n _ _ => n
  | .Alias _ nm _ => nm
  | _ => ""

/-- Embedding of `star_v2` from `sqlmesh/macros/star_v2.py`.  Points kept
faithful to the source:
* the guards `if alias and not isinstance(...)` and the analogous ones for
  `exclude`, `prefix` and `suffix` test Python truthiness of the node
  (`exprTruthy`, identically true) conjoined with the `isinstance` check;
* the module never imports or defines `logger`, so the deprecation branch
  entered when `except_` differs structurally from the empty tuple raises
  `NameError` at `logger.warning(...)` before anything else happens; in
  particular `except_` is never merged into the exclusion set, and the
  re-validation of `exclude` inside that branch is unreachable;
* `if select_only:` also tests node truthiness, which is true even for
  `exp.false()`, so every successful call returns the bare-column
  projection list; the two cast/alias list comprehensions below it are
  unreachable (and the undefined helper `columns_to_types_all_known` they
  consult can therefore never raise its own `NameError`). -/
def star_v2 (evaluator : MacroEvaluator)
    (relation alias_ exclude pre suf quote_identifiers except_ select_only : Expr) :
    Except PyErr (List Expr) :=
  if exprTruthy alias_ && ! isIdentifierOrColumn alias_ then
    .error (.SQLMeshError "Invalid alias. Expected an identifier.")
  else if exprTruthy exclude && ! isArrayTupleOrColumn exclude then
    .error (.SQLMeshError "Invalid exclude. Expected an array or a column.")
  else if ! isEmptyTuple except_ then
    .error (.NameError "logger")
  else if exprTruthy pre && ! isLiteralNode pre then
    .error (.SQLMeshError "Invalid prefix. Expected a literal.")
  else if exprTruthy suf && ! isLiteralNode suf then
    .error (.SQLMeshError "Invalid suffix. Expected a literal.")
  else if ! isBooleanNode quote_identifiers then
    .error (.SQLMeshError "Invalid quote_identifiers. Expected a boolean.")
  else if ! isBooleanNode select_only then
    .error (.SQLMeshError "Invalid select_only. Expected a boolean.")
  else
    let quoted := quote_identifiers.boolThis
    let table_identifier := tableIdentifierOf alias_ relation
    let columns_to_types := retainedColumns evaluator relation exclude
    if exprTruthy select_only then
      .ok (columns_to_types.map
        (fun kv => Expr.Column kv.1 table_identifier quoted))
    else if columns_to_types_all_known columns_to_types then
      .ok (columns_to_types.map (fun kv =>
        Expr.Alias (Expr.Cast (Expr.Column kv.1 table_identifier quoted) kv.2)
          (pre.litThis ++ kv.1 ++ suf.litThis) quoted))
    else
      .ok (columns_to_types.map (fun kv =>
        Expr.Alias (Expr.Column kv.1 table_identifier quoted)
          (pre.litThis ++ kv.1 ++ suf.litThis) quoted))

/-- Concrete evaluator for the docstring example of `star_v2`: identity
normalization and schema `foo(a: TEXT, b: TEXT, c: TEXT, d: INT)`. -/
def evDoc : MacroEvaluator :=
  ⟨fun s => s,
   fun r => if r = "foo"
     then [("a", "TEXT"), ("b", "TEXT"), ("c", "TEXT"), ("d", "INT")]
     else []⟩

/-- Concrete evaluator with an unknown declared type: identity
normalization and schema `foo(a: UNKNOWN, b: INT)`. -/
def evUnknown : MacroEvaluator :=
  ⟨fun s => s,
   fun r => if r = "foo" then [("a", "UNKNOWN"), ("b", "INT")] else []⟩

/-- A small concrete identifier normalizer that lower-cases the three
upper-case names used in the exclusion witness and fixes everything
else. -/
def demoNormalize : String → String
  | "A" => "a"
  | "B" => "b"
  | "C" => "c"
  | s => s

/-- Concrete evaluator whose normalizer is `demoNormalize`, with schema
`rel(a: INT, b: INT, c: INT)` whose keys are canonical for it. -/
def evLower : MacroEvaluator :=
  ⟨demoNormalize,
   fun r => if r = "rel" then [("a", "INT"), ("b", "INT"), ("c", "INT")] else []⟩

/-! ## `star_v2.py`: claims -/

/-- C1 (code bug): with the deprecated `except_` argument set to `(a)` and
`exclude` empty, `star_v2` raises `NameError` — the module global `logger`
used on the deprecation path is never defined — instead of reproducing the
`exclude = (a)` behavior plus one deprecation warning; the same exclusion
passed through `exclude` succeeds and omits column `a`. -/
theorem star_v2_legacy_except_bug :
    star_v2 evDoc (Expr.Table "foo") (Expr.Column "" "" false)
        (Expr.Tuple []) (Expr.Literal "") (Expr.Literal "")
        (Expr.Boolean true) (Expr.Tuple [Expr.Column "a" "" false])
        (Expr.Boolean false)
      = .error (.NameError "logger")
    ∧ star_v2 evDoc (Expr.Table "foo") (Expr.Column "" "" false)
        (Expr.Tuple [Expr.Column "a" "" false]) (Expr.Literal "")
        (Expr.Literal "") (Expr.Boolean true) (Expr.Tuple [])
        (Expr.Boolean false)
      = .ok [Expr.Column "b" "foo" true, Expr.Column "c" "foo" true,
             Expr.Column "d" "foo" true] :=
  ⟨rfl, rfl⟩

/-- C3 (code bug): with a retained column of unknown declared type and
`select_only = false`, the claim expects aliased, uncast projections
(`table.column AS prefix||column||suffix`); the code instead returns bare
unaliased column references, because `if select_only:` tests node
truthiness, which holds even for `exp.false()`. -/
theorem star_v2_unknown_fallback_bug :
    star_v2 evUnknown (Expr.Table "foo") (Expr.Column "" "" false)
        (Expr.Tuple []) (Expr.Literal "p_") (Expr.Literal "")
        (Expr.Boolean true) (Expr.Tuple []) (Expr.Boolean false)
      = .ok [Expr.Column "a" "foo" true, Expr.Column "b" "foo" true] := rfl

/-- C4 (code bug): on the module docstring's own example (all types known,
`exclude := [c]`, `prefix := 'baz_'`, alias `bar`, `select_only` left at
its false default) the claim and the docstring expect
`CAST("bar"."a" AS TEXT) AS "baz_a", ...`; the code instead returns bare
unaliased column references, because `if select_only:` tests node
truthiness, which holds even for `exp.false()`. -/
theorem star_v2_cast_branch_bug :
    star_v2 evDoc (Expr.Table "foo") (Expr.Column "bar" "" false)
        (Expr.Tuple [Expr.Column "c" "" false]) (Expr.Literal "baz_")
        (Expr.Literal "") (Expr.Boolean true) (Expr.Tuple [])
        (Expr.Boolean false)
      = .ok [Expr.Column "a" "bar" true, Expr.Column "b" "bar" true,
             Expr.Column "d" "bar" true] := rfl

/-- Filtering pairs on raw keys agrees with filtering the key list on
normalized keys when every key is already canonical for the normalizer. -/
theorem filter_keys_normalized (n : String → String) (ex : List String) :
    ∀ l : List (String × String),
      (∀ kv ∈ l, n kv.1 = kv.1) →
      (l.filter (fun kv => ! ex.contains kv.1)).map Prod.fst
        = (l.map Prod.fst).filter (fun k => ! ex.contains (n k)) := by
  intro l
  induction l with
  | nil => intro _; rfl
  | cons kv t ih =>
    intro h
    have hk : n kv.1 = kv.1 := h kv (List.mem_cons_self kv t)
    have ht := ih (fun x hx => h x (List.mem_cons_of_mem kv hx))
    have ht' : (t.filter (fun kv => !decide (kv.1 ∈ ex))).map Prod.fst
        = (t.map Prod.fst).filter (fun k => !decide (n k ∈ ex)) := by
      simpa using ht
    by_cases hc : kv.1 ∈ ex
    · simp [List.filter_cons, hk, hc, ht']
    · simp [List.filter_cons, hk, hc, ht']

/-- C5: for a successful call, the emitted columns are exactly the
resolver's columns whose normalized name is not in the normalized
exclusion set, in the resolver's order — stated under the §3 data-model
invariant that `ColumnTypeMap` keys are already canonical identifiers
(fixed points of the normalizer). -/
theorem star_v2_exclusion (ev : MacroEvaluator)
    (relation alias_ exclude pre suf : Expr) (qb sb : Bool)
    (ha : isIdentifierOrColumn alias_ = true)
    (hx : isArrayTupleOrColumn exclude = true)
    (hp : isLiteralNode pre = true)
    (hs : isLiteralNode suf = true)
    (hnorm : (ev.columns_to_types relation).all
        (fun kv => ev.normalize kv.1 == kv.1) = true) :
    star_v2 ev relation alias_ exclude pre suf (Expr.Boolean qb)
        (Expr.Tuple []) (Expr.Boolean sb)
      = .ok ((retainedColumns ev relation exclude).map
          (fun kv => Expr.Column kv.1 (tableIdentifierOf alias_ relation) qb))
    ∧ (retainedColumns ev relation exclude).map Prod.fst
        = ((ev.columns_to_types relation).map Prod.fst).filter
            (fun k => ! (excludedNamesOf ev exclude).contains (ev.normalize k)) := by
  constructor
  · simp [star_v2, exprTruthy, ha, hx, hp, hs, isEmptyTuple, isBooleanNode,
      Expr.boolThis, tableIdentifierOf]
  · have h : ∀ kv ∈ ev.columns_to_types relation, ev.normalize kv.1 = kv.1 := by
      simpa [List.all_eq_true] using hnorm
    exact filter_keys_normalized ev.normalize (excludedNamesOf ev exclude) _ h

/-- Witness for C5: lower-casing normalizer, schema `rel(a, b, c)` with
canonical (lower-case) keys, exclusion written as the upper-case column
`B`; columns `a` and `c` are retained, in order. -/
theorem star_v2_exclusion_witness :
    (isIdentifierOrColumn (Expr.Column "t" "" false) = true
      ∧ isArrayTupleOrColumn (Expr.Tuple [Expr.Column "B" "" false]) = true
      ∧ isLiteralNode (Expr.Literal "") = true
      ∧ (evLower.columns_to_types (Expr.Table "rel")).all
          (fun kv => evLower.normalize kv.1 == kv.1) = true)
    ∧ (star_v2 evLower (Expr.Table "rel") (Expr.Column "t" "" false)
          (Expr.Tuple [Expr.Column "B" "" false]) (Expr.Literal "")
          (Expr.Literal "") (Expr.Boolean true) (Expr.Tuple [])
          (Expr.Boolean false)
        = .ok ((retainedColumns evLower (Expr.Table "rel")
              (Expr.Tuple [Expr.Column "B" "" false])).map
            (fun kv => Expr.Column kv.1
              (tableIdentifierOf (Expr.Column "t" "" false) (Expr.Table "rel"))
              true))
      ∧ (retainedColumns evLower (Expr.Table "rel")
            (Expr.Tuple [Expr.Column "B" "" false])).map Prod.fst
          = ((evLower.columns_to_types (Expr.Table "rel")).map Prod.fst).filter
              (fun k => ! (excludedNamesOf evLower
                  (Expr.Tuple [Expr.Column "B" "" false])).contains
                (evLower.normalize k))) :=
  ⟨⟨rfl, rfl, rfl, by decide⟩,
   star_v2_exclusion evLower (Expr.Table "rel") (Expr.Column "t" "" false)
     (Expr.Tuple [Expr.Column "B" "" false]) (Expr.Literal "")
     (Expr.Literal "") true false rfl rfl rfl rfl (by decide)⟩

/-- C6: with `select_only` true (well-shaped arguments, empty legacy
`except_`), `star_v2` returns, for each retained column in the resolver's
order, a bare qualified column reference quoted per `quote_identifiers` —
no cast and no output alias — with no assumption on whether the declared
types are known or unknown. -/
theorem star_v2_select_only_bare (ev : MacroEvaluator)
    (relation alias_ exclude pre suf : Expr) (qb : Bool)
    (ha : isIdentifierOrColumn alias_ = true)
    (hx : isArrayTupleOrColumn exclude = true)
    (hp : isLiteralNode pre = true)
    (hs : isLiteralNode suf = true) :
    star_v2 ev relation alias_ exclude pre suf (Expr.Boolean qb)
        (Expr.Tuple []) (Expr.Boolean true)
      = .ok ((retainedColumns ev relation exclude).map
          (fun kv => Expr.Column kv.1 (tableIdentifierOf alias_ relation) qb)) := by
  simp [star_v2, exprTruthy, ha, hx, hp, hs, isEmptyTuple, isBooleanNode,
    Expr.boolThis, tableIdentifierOf]

/-- Witness for C6 on a schema containing an unknown declared type. -/
theorem star_v2_select_only_bare_witness :
    (isIdentifierOrColumn (Expr.Column "t" "" false) = true
      ∧ isArrayTupleOrColumn (Expr.Tuple []) = true
      ∧ isLiteralNode (Expr.Literal "") = true)
    ∧ star_v2 evUnknown (Expr.Table "foo") (Expr.Column "t" "" false)
        (Expr.Tuple []) (Expr.Literal "") (Expr.Literal "")
        (Expr.Boolean true) (Expr.Tuple []) (Expr.Boolean true)
      = .ok ((retainedColumns evUnknown (Expr.Table "foo") (Expr.Tuple [])).map
          (fun kv => Expr.Column kv.1
            (tableIdentifierOf (Expr.Column "t" "" false) (Expr.Table "foo"))
            true)) :=
  ⟨⟨rfl, rfl, rfl⟩,
   star_v2_select_only_bare evUnknown (Expr.Table "foo")
     (Expr.Column "t" "" false) (Expr.Tuple []) (Expr.Literal "")
     (Expr.Literal "") true rfl rfl rfl rfl⟩

/-- C7 (code bug): a call whose `prefix` argument is not a literal node but
whose deprecated `except_` argument is non-empty fails with `NameError`
(the undefined module global `logger`) rather than with the
`SQLMeshError`/ConfigurationError the claim requires; the same bad prefix
with `except_` left empty does raise the validation error, before any
output is produced. -/
theorem star_v2_validation_preempted_bug :
    star_v2 evDoc (Expr.Table "foo") (Expr.Column "" "" false)
        (Expr.Tuple []) (Expr.Column "p" "" false) (Expr.Literal "")
        (Expr.Boolean true) (Expr.Tuple [Expr.Column "a" "" false])
        (Expr.Boolean false)
      = .error (.NameError "logger")
    ∧ star_v2 evDoc (Expr.Table "foo") (Expr.Column "" "" false)
        (Expr.Tuple []) (Expr.Column "p" "" false) (Expr.Literal "")
        (Expr.Boolean true) (Expr.Tuple []) (Expr.Boolean false)
      = .error (.SQLMeshError "Invalid prefix. Expected a literal.") :=
  ⟨rfl, rfl⟩

/-- C8: on every successful call, each output column name is a column name
of the resolver's `ColumnTypeMap`, or such a name wrapped with the literal
prefix and suffix texts — the expander never invents a name. -/
theorem star_v2_never_invents_names (ev : MacroEvaluator)
    (relation alias_ exclude pre suf quote_identifiers except_ select_only : Expr)
    (out : List Expr)
    (h : star_v2 ev relation alias_ exclude pre suf quote_identifiers
        except_ select_only = .ok out) :
    ∀ e ∈ out,
      e.output_name ∈ (ev.columns_to_types relation).map Prod.fst
      ∨ e.output_name ∈ ((ev.columns_to_types relation).map Prod.fst).map
          (fun k => pre.litThis ++ k ++ suf.litThis) := by
  simp only [star_v2, exprTruthy, Bool.true_and] at h
  split_ifs at h
  injection h with h'
  subst h'
  intro e he
  rw [List.mem_map] at he
  obtain ⟨kv, hkv, rfl⟩ := he
  left
  simp only [Expr.output_name]
  exact List.mem_map_of_mem Prod.fst (List.mem_of_mem_filter hkv)

/-- Witness for C8: a successful concrete call and one of its output
nodes; its name is a resolver column name. -/
theorem star_v2_never_invents_names_witness :
    (Expr.Column "b" "foo" true).output_name
        ∈ (evUnknown.columns_to_types (Expr.Table "foo")).map Prod.fst
      ∨ (Expr.Column "b" "foo" true).output_name
          ∈ ((evUnknown.columns_to_types (Expr.Table "foo")).map Prod.fst).map
              (fun k => (Expr.Literal "p_").litThis ++ k
                ++ (Expr.Literal "").litThis) :=
  star_v2_never_invents_names evUnknown (Expr.Table "foo")
    (Expr.Column "" "" false) (Expr.Tuple []) (Expr.Literal "p_")
    (Expr.Literal "") (Expr.Boolean true) (Expr.Tuple []) (Expr.Boolean false)
    [Expr.Column "a" "foo" true, Expr.Column "b" "foo" true] rfl
    (Expr.Column "b" "foo" true) (by simp)
